import Mathlib

/-!
Verification of the natural-language specification of the `llm-deployment`
repository (single source file `main.py`) against a shallow Lean embedding.

Modelling conventions
=====================

* The program is sequential orchestration of three external services (an LLM
  completion API, the GitHub REST API via PyGithub, and a caller-supplied
  callback endpoint).  Every external response is supplied by an *oracle*
  (plain data passed in as a parameter), and every externally visible action
  is recorded in an explicit `Effect` trace.
* Python strings are modelled by Lean `String`; `str.strip()` by `pyStrip`,
  `str.lower()` by `pyLower`, `str.replace` by `pyReplace`, `len` by
  `String.length`, the substring test `pat in s` by `strContains`, and
  `startswith` / `endswith` by `pyStartsWith` / `pyEndsWith` (all defined
  below by structural recursion on the character list, so that concrete
  inputs evaluate inside the kernel).
* The Python float comparison `len(u.strip()) < len(old) * 0.5` is modelled
  exactly by the integer comparison `2 * (pyStrip u).length < old.length`
  (for natural numbers `a < b * 0.5` holds iff `2 * a < b`, and the float
  arithmetic is exact at these magnitudes).
* The GitHub repository is an association list `RepoFiles` from path to
  content; `get_contents` is `repoGet` (a `none` result models the 404
  `UnknownObjectException` / `GithubException` path), and
  `create_file` / `update_file` are `setFile`.  Remote create/update calls
  are assumed not to fail in other ways (transient platform errors are out
  of scope of the claims under verification).
* `print` / `logger` output is not traced, with one exception: the round-2
  "Invalid HTML" post-commit warning (`main.py` lines 535-536), which one of
  the claims under analysis is about, is traced as `Effect.log`.
* The repository-deletion wait loop (`delete_repo_if_exists`) and the pages
  readiness polling performed inside the two deploy functions only sleep and
  read; in the deploy traces they are abstracted to the single markers
  `Effect.repoDelete` / `Effect.pagesWait`.  The poller itself is modelled
  in full detail as `waitPoll` below.
-/

namespace LlmDeploy

/-!
### Python string primitives

Python `str` operations are modelled by structurally recursive functions on
the underlying character list (core `String.trim` / `String.replace` are
defined by well-founded recursion on byte positions, which the kernel does
not evaluate, so concrete test inputs could not be checked with them).
-/

/-- The ASCII whitespace stripped by Python's `str.strip()`:
space, tab, newline, carriage return, vertical tab, form feed. -/
def isPyWhite (c : Char) : Bool :=
  c == ' ' || c == '\t' || c == '\n' || c == '\r' || c == '\x0b' || c == '\x0c'

/-- Drop leading Python whitespace from a character list. -/
def stripLeftList : List Char → List Char
  | [] => []
  | c :: r => if isPyWhite c then stripLeftList r else c :: r

/-- Drop leading and trailing Python whitespace. -/
def stripList (s : List Char) : List Char :=
  (stripLeftList (stripLeftList s).reverse).reverse

/-- Python's `s.strip()`. -/
def pyStrip (s : String) : String := ⟨stripList s.data⟩

/-- Left-to-right non-overlapping replacement, one fuel unit per character
examined (the fuel `s.length` always suffices because every step consumes at
least one character). -/
def replLoop (pat rep : List Char) : Nat → List Char → List Char
  | 0, s => s
  | _ + 1, [] => []
  | n + 1, c :: rest =>
    if pat.isPrefixOf (c :: rest) then
      rep ++ replLoop pat rep n (List.drop (pat.length - 1) rest)
    else c :: replLoop pat rep n rest

/-- Python's `s.replace(pat, rep)`.  The source never calls it with an empty
pattern; that edge case returns `s` unchanged. -/
def pyReplace (s pat rep : String) : String :=
  if pat.data.isEmpty then s else ⟨replLoop pat.data rep.data s.data.length s.data⟩

/-- Python's `s.lower()` (ASCII case folding suffices for the literals the
source compares against). -/
def pyLower (s : String) : String := ⟨s.data.map Char.toLower⟩

/-- Does `pat` occur in `s` (as a contiguous character run)? -/
def containsList (pat : List Char) : List Char → Bool
  | [] => pat.isEmpty
  | c :: r => pat.isPrefixOf (c :: r) || containsList pat r

/-- Python's `pat in s` substring test. -/
def strContains (s pat : String) : Bool := containsList pat.data s.data

/-- Python's `s.startswith(pat)`. -/
def pyStartsWith (s pat : String) : Bool := pat.data.isPrefixOf s.data

/-- Python's `s.endswith(pat)`. -/
def pyEndsWith (s pat : String) : Bool := pat.data.reverse.isPrefixOf s.data.reverse

/-! ### Page readiness poller (`wait_for_pages_ready`, main.py lines 641-658)

The loop body is
```
start = time.time()
while time.time() - start < max_wait:
    try:
        r = requests.get(pages_url, timeout=5)
        if r.status_code == 200: return True
    except requests.RequestException:
        pass
    time.sleep(3)
return False
```
`f i` is the outcome of the `i`-th fetch (HTTP status, or a network
exception), `dur i` is the wall-clock duration of the `i`-th fetch, and `e`
is the elapsed time checked at the loop head.  Each iteration advances the
clock by the fetch duration plus the 3-second sleep. -/

/-- Outcome of one network fetch: an HTTP status, or a raised
`requests.RequestException`. -/
inductive FetchOutcome where
  | status (code : Nat)
  | exn
deriving DecidableEq, Repr

/-- The `r.status_code == 200` test; an exception never passes it. -/
def FetchOutcome.isOk : FetchOutcome → Bool
  | .status c => c == 200
  | .exn => false

/-- The polling loop of `wait_for_pages_ready`: at elapsed time `e` (loop
head), if the budget `w` is not yet exhausted, perform fetch `i`; status 200
returns `true`, anything else (including an exception) sleeps 3 seconds and
continues. -/
def waitPoll (f : Nat → FetchOutcome) (dur : Nat → Nat) (w : Nat) (i e : Nat) : Bool :=
  if h : e < w then
    if (f i).isOk then true
    else waitPoll f dur w (i + 1) (e + dur i + 3)
  else false
termination_by w - e
decreasing_by omega

/-- `wait_for_pages_ready(pages_url, max_wait)`, starting at fetch 0 and
elapsed time 0. -/
def wait_for_pages_ready (f : Nat → FetchOutcome) (dur : Nat → Nat) (maxWait : Nat) : Bool :=
  waitPoll f dur maxWait 0 0

/-- The Python signature `wait_for_pages_ready(pages_url, max_wait=60)`:
calling it without `max_wait` uses a 60-second budget. -/
def wait_for_pages_ready_default (f : Nat → FetchOutcome) (dur : Nat → Nat) : Bool :=
  wait_for_pages_ready f dur 60

/-- Elapsed wall-clock time from the start of fetch `i` to the start of fetch
`i + k`: each intervening iteration costs its fetch duration plus the fixed
3-second sleep. -/
def sumD (dur : Nat → Nat) (i : Nat) : Nat → Nat
  | 0 => 0
  | k + 1 => dur i + 3 + sumD dur (i + 1) k

theorem waitPoll_true_iff (f : Nat → FetchOutcome) (dur : Nat → Nat) (w : Nat) :
    ∀ n i e, w - e ≤ n →
      (waitPoll f dur w i e = true ↔
        ∃ k, e + sumD dur i k < w ∧ (f (i + k)).isOk = true) := by
  intro n
  induction n with
  | zero =>
    intro i e h
    have hew : ¬ e < w := by omega
    rw [waitPoll, dif_neg hew]
    simp only [Bool.false_eq_true, false_iff]
    rintro ⟨k, hk, -⟩
    omega
  | succ n ih =>
    intro i e h
    by_cases hew : e < w
    · rw [waitPoll, dif_pos hew]
      by_cases hok : (f i).isOk = true
      · simp only [hok, if_true, true_iff]
        exact ⟨0, by simpa [sumD] using hew, by simpa [sumD] using hok⟩
      · rw [Bool.not_eq_true] at hok
        rw [hok]
        simp only [Bool.false_eq_true, if_false]
        rw [ih (i + 1) (e + dur i + 3) (by omega)]
        constructor
        · rintro ⟨k, hk, hko⟩
          refine ⟨k + 1, by simp only [sumD]; omega, ?_⟩
          have hidx : i + (k + 1) = i + 1 + k := by omega
          rw [hidx]; exact hko
        · rintro ⟨k, hk, hko⟩
          cases k with
          | zero =>
            simp only [Nat.add_zero] at hko
            rw [hok] at hko
            exact absurd hko (by simp)
          | succ k =>
            refine ⟨k, by simp only [sumD] at hk; omega, ?_⟩
            have hidx : i + (k + 1) = i + 1 + k := by omega
            rw [hidx] at hko; exact hko
    · rw [waitPoll, dif_neg hew]
      simp only [Bool.false_eq_true, false_iff]
      rintro ⟨k, hk, -⟩
      omega

/-- Claim C7: the Page Readiness Poller, given a URL and a maximum wait
(default 60 seconds), fetches the URL every 3 seconds (each iteration costs
the fetch duration plus a fixed 3-second sleep); it returns success iff some
fetch that starts within the wall-clock budget carries status 200 (so any
network exception counts as "not yet ready"), and otherwise returns failure
without raising once the budget is exhausted. -/
theorem pages_poller_contract (f : Nat → FetchOutcome) (dur : Nat → Nat) :
    wait_for_pages_ready_default f dur = wait_for_pages_ready f dur 60
    ∧ (∀ i k, sumD dur i (k + 1) = dur i + 3 + sumD dur (i + 1) k)
    ∧ (∀ w, wait_for_pages_ready f dur w = true ↔
        ∃ k, sumD dur 0 k < w ∧ (f k).isOk = true) := by
  refine ⟨rfl, fun i k => rfl, fun w => ?_⟩
  rw [wait_for_pages_ready, waitPoll_true_iff f dur w w 0 0 (by omega)]
  simp

/-! ### Effect traces

Every externally visible action of the handler is recorded as one `Effect`.
-/

/-- Externally visible actions of the pipeline, in program order. -/
inductive Effect where
  /-- Writing a `data:image` attachment to the server's local disk
  (`build_app`, main.py lines 85-91). -/
  | localSave (name : String)
  /-- The LLM app-generation call (`generate_minimal_app`, line 95). -/
  | llmGenerate
  /-- A round-2 LLM file-edit call (`llm_update_file`). -/
  | llmUpdate (filename : String)
  /-- Deleting a stale repository (`delete_repo_if_exists`; its internal
  confirmation polling only sleeps and reads, and is absorbed here). -/
  | repoDelete (name : String)
  /-- `user.create_repo` (line 276). -/
  | repoCreate (name : String)
  /-- `repo.create_file(path, msg, content)`. -/
  | fileCreate (path msg content : String)
  /-- `repo.update_file(path, msg, content, sha)`. -/
  | fileUpdate (path msg content : String)
  /-- `repo.edit(has_issues=True)` followed by the Pages-enablement POST
  (lines 347-352). -/
  | pagesEnable (status : Nat)
  /-- A call to `wait_for_pages_ready(url)`; it only fetches and sleeps. -/
  | pagesWait (url : String)
  /-- `requests.post(evaluation_url, json=payload, timeout=10)`;
  `timeoutSecs` records the per-attempt timeout argument. -/
  | callbackPost (url : String) (timeoutSecs : Nat)
  /-- `time.sleep(secs)` in the callback retry loop. -/
  | sleep (secs : Nat)
  /-- A `print` the claims under analysis refer to (only the round-2
  "Invalid HTML" warning is traced). -/
  | log (msg : String)
deriving DecidableEq, Repr

/-! ### Callback Notifier (`build_app`, main.py lines 112-122 and 141-150)

```
delay = 1
while True:
    try:
        r = requests.post(evaluation_url, json=payload, timeout=10)
        if r.status_code == 200:
            break
    except Exception as e:
        logger.warning(...)
    time.sleep(delay)
    delay = min(delay * 2, 60)
```
The oracle lists the outcome of each successive POST attempt.  An empty
remainder of the oracle models a loop that is still running (there is no
maximum retry count in the source), signalled by the `Bool` component
`false`. -/

/-- Outcome of one callback POST attempt: an HTTP status, or a raised
exception. -/
inductive CbOutcome where
  | status (code : Nat)
  | exn
deriving DecidableEq, Repr

/-- The `r.status_code == 200` break test; an exception skips it. -/
def CbOutcome.is200 : CbOutcome → Bool
  | .status c => c == 200
  | .exn => false

/-- The callback retry loop.  Returns the effect trace of the modelled
attempts and `true` iff the loop broke (a 200 response) within them. -/
def notifyLoop (url : String) : List CbOutcome → Nat → List Effect × Bool
  | [], _ => ([], false)
  | o :: rest, delay =>
    if o.is200 then ([Effect.callbackPost url 10], true)
    else
      let r := notifyLoop url rest (min (delay * 2) 60)
      (Effect.callbackPost url 10 :: Effect.sleep delay :: r.1, r.2)

/-- Number of attempts the loop retries past: the leading run of non-200
outcomes. -/
def cbFailCount (outs : List CbOutcome) : Nat :=
  (outs.takeWhile (fun o => !o.is200)).length

/-- Whether an effect is a callback POST attempt. -/
def Effect.isPost : Effect → Bool
  | .callbackPost _ _ => true
  | _ => false

/-- The sleep duration of an effect, when it is a sleep. -/
def Effect.sleepVal : Effect → Option Nat
  | .sleep n => some n
  | _ => none

/-- The POST attempts recorded in a trace. -/
def postsOf (tr : List Effect) : List Effect :=
  tr.filter Effect.isPost

/-- The sleep durations recorded in a trace, in order. -/
def sleepsOf (tr : List Effect) : List Nat :=
  tr.filterMap Effect.sleepVal

theorem notifyLoop_done (url : String) :
    ∀ (outs : List CbOutcome) (d : Nat),
      (notifyLoop url outs d).2 = outs.any CbOutcome.is200 := by
  intro outs
  induction outs with
  | nil => intro d; rfl
  | cons o rest ih =>
    intro d
    by_cases h : o.is200 <;> simp [notifyLoop, h, ih]

theorem notifyLoop_posts (url : String) :
    ∀ (outs : List CbOutcome) (d : Nat),
      postsOf (notifyLoop url outs d).1 =
        List.replicate (cbFailCount outs + (if outs.any CbOutcome.is200 then 1 else 0))
          (Effect.callbackPost url 10) := by
  intro outs
  induction outs with
  | nil => intro d; rfl
  | cons o rest ih =>
    intro d
    by_cases h : o.is200
    · simp [notifyLoop, h, postsOf, Effect.isPost, cbFailCount, List.takeWhile_cons]
    · have h' : o.is200 = false := by simpa using h
      have hcount : cbFailCount (o :: rest) + (if (o :: rest).any CbOutcome.is200 then 1 else 0)
          = (cbFailCount rest + (if rest.any CbOutcome.is200 then 1 else 0)) + 1 := by
        simp only [cbFailCount, List.takeWhile_cons, h', Bool.not_false, if_true,
          List.length_cons, List.any_cons, Bool.false_eq_true, Bool.false_or]
        omega
      rw [hcount, List.replicate_succ]
      simp only [notifyLoop, h', Bool.false_eq_true, if_false]
      simpa [postsOf, Effect.isPost] using ih (min (d * 2) 60)

theorem min_double_cap (t : Nat) : min (min t 60 * 2) 60 = min (t * 2) 60 := by
  omega

theorem notifyLoop_sleeps (url : String) :
    ∀ (outs : List CbOutcome) (j : Nat),
      sleepsOf (notifyLoop url outs (min (2 ^ j) 60)).1 =
        (List.range (cbFailCount outs)).map (fun k => min (2 ^ (j + k)) 60) := by
  intro outs
  induction outs with
  | nil => intro j; rfl
  | cons o rest ih =>
    intro j
    by_cases h : o.is200
    · simp [notifyLoop, h, sleepsOf, Effect.sleepVal, cbFailCount, List.takeWhile_cons]
    · have h' : o.is200 = false := by simpa using h
      have hcount : cbFailCount (o :: rest) = cbFailCount rest + 1 := by
        simp [cbFailCount, List.takeWhile_cons, h']
      have hcap : min (min (2 ^ j) 60 * 2) 60 = min (2 ^ (j + 1)) 60 := by
        rw [min_double_cap, Nat.pow_succ]
      rw [hcount]
      simp only [notifyLoop, h', Bool.false_eq_true, if_false, sleepsOf, List.filterMap_cons]
      have ih' := ih (j + 1)
      simp only [sleepsOf] at ih'
      rw [hcap, ih']
      simp only [Effect.sleepVal]
      rw [List.range_succ_eq_map]
      simp only [List.map_cons, List.map_map, Nat.add_zero]
      congr 1
      apply List.map_congr_left
      intro k _
      simp only [Function.comp_apply]
      congr 2
      omega

/-- Claim C6: the Callback Notifier POSTs with a 10-second per-attempt
timeout; with no maximum retry count it stops exactly when an attempt
returns HTTP 200 (an exception or any other status retries), and it sleeps
`min(2^(k-1), 60)` seconds before the `k`-th retry (the `k`-th entry of the
sleep trace, 0-indexed as `k-1`, is `min (2 ^ (k-1)) 60`). -/
theorem callback_notifier_contract (url : String) (outs : List CbOutcome) :
    postsOf (notifyLoop url outs 1).1 =
      List.replicate (cbFailCount outs + (if outs.any CbOutcome.is200 then 1 else 0))
        (Effect.callbackPost url 10)
    ∧ sleepsOf (notifyLoop url outs 1).1 =
        (List.range (cbFailCount outs)).map (fun k => min (2 ^ k) 60)
    ∧ (notifyLoop url outs 1).2 = outs.any CbOutcome.is200 := by
  refine ⟨notifyLoop_posts url outs 1, ?_, notifyLoop_done url outs 1⟩
  have h1 : (1 : Nat) = min (2 ^ 0) 60 := by norm_num
  rw [h1, notifyLoop_sleeps url outs 0]
  simp

/-! ### Remote repository state -/

/-- The remote repository's files: an association list from path to text
content (first match wins). -/
abbrev RepoFiles := List (String × String)

/-- `repo.get_contents(path)`: `none` models the "not found" exception
(`UnknownObjectException` / `GithubException` with status 404). -/
def repoGet (fs : RepoFiles) (path : String) : Option String :=
  (fs.find? (fun q => q.1 == path)).map (fun q => q.2)

/-- `repo.create_file` / `repo.update_file`: afterwards `path` holds
`content`. -/
def setFile (fs : RepoFiles) (path content : String) : RepoFiles :=
  (path, content) :: fs.filter (fun q => q.1 != path)

theorem repoGet_setFile_self (fs : RepoFiles) (p c : String) :
    repoGet (setFile fs p c) p = some c := by
  simp [repoGet, setFile, List.find?]

/-! ### Round 2 updater (`update_existing_repo`, main.py lines 373-613)

The LLM responses are oracle strings (`llmRaw` below).  `llm_update_file`
strips the response and removes markdown code fences for the file's
extension; each caller then repeats the fence-stripping once more on the
result (a no-op, retained for fidelity) before the acceptance heuristic
`len(updated.strip()) < len(old) * 0.5 or updated == old`. -/

/-- Output post-processing inside `llm_update_file` (lines 402-404):
strip, remove ```` ```ext ```` and ```` ``` ````, strip again. -/
def llm_update_file_out (raw ext : String) : String :=
  pyStrip (pyReplace (pyReplace (pyStrip raw) ("```" ++ ext) "") "```" "")

/-- The round-2 HTML candidate: `llm_update_file(..., "html")` output with
the caller's second fence-strip pass (line 528). -/
def processedHtml (raw : String) : String :=
  pyStrip (pyReplace (pyReplace (llm_update_file_out raw "html") "```html" "") "```" "")

/-- The round-2 CSS candidate (lines 559-560). -/
def processedCss (raw : String) : String :=
  pyStrip (pyReplace (pyReplace (llm_update_file_out raw "css") "```css" "") "```" "")

/-- The round-2 JS candidate (lines 588-589; note the LLM call uses the
extension string "javascript" and the caller also strips ```` ```js ````). -/
def processedJs (raw : String) : String :=
  pyStrip (pyReplace (pyReplace (pyReplace
    (llm_update_file_out raw "javascript") "```javascript" "") "```" "") "```js" "")

/-- The acceptance heuristic that rejects the LLM output:
`len(updated.strip()) < len(old) * 0.5 or updated == old`.  The original
content `old` enters **untrimmed** (its raw `len`). -/
def llmRejected (updated old : String) : Bool :=
  decide (2 * (pyStrip updated).length < old.length) || updated == old

/-- Scripted HTML fallback content for an existing `index.html`
(`merge_html_update`, lines 426-432). -/
def mergeHtmlContent (old brief : String) : String :=
  if strContains (pyLower brief) "colorful" || strContains (pyLower brief) "theme" then
    pyReplace (pyReplace old "<body>"
      "<body><div style='border: 3px solid #00bcd4; padding: 20px; border-radius: 10px;'>")
      "</body>" "</div></body>"
  else
    old ++ "\n<!-- Update: " ++ brief ++ " -->"

/-- `merge_html_update` (lines 421-446): patch an existing `index.html`, or
create a minimal default when it does not exist. -/
def merge_html_update (repo : RepoFiles) (task brief : String) : List Effect × RepoFiles :=
  match repoGet repo "index.html" with
  | some old =>
      let updated := mergeHtmlContent old brief
      ([Effect.fileUpdate "index.html" ("Guaranteed HTML update for " ++ task) updated],
        setFile repo "index.html" updated)
  | none =>
      ([Effect.fileCreate "index.html" "Initial HTML" "<h1>Hello World</h1>"],
        setFile repo "index.html" "<h1>Hello World</h1>")

/-- The dark-theme CSS rule appended by `merge_css_update`. -/
def darkCssRule : String := "\nbody \x7b background-color: #121212; color: #ffffff; \x7d\n"

/-- The colorful CSS rule appended by `merge_css_update`. -/
def colorfulCssRule : String :=
  "\n.box \x7b border: 3px solid #ff69b4; background: linear-gradient(45deg, #ff9a9e, #fad0c4); \x7d\n"

/-- The generic CSS marker appended by `merge_css_update`. -/
def defaultCssRule : String := "\n/* Round 2 visual update applied */\n"

/-- The default CSS created by `merge_css_update` when `style.css` is
missing. -/
def defaultCssFile : String := "body \x7b font-family: sans-serif; \x7d"

/-- Scripted CSS fallback content for an existing `style.css`
(`merge_css_update`, lines 454-462). -/
def mergeCssContent (old brief : String) : String :=
  old ++
    (if strContains (pyLower brief) "dark" then darkCssRule
     else if strContains (pyLower brief) "colorful" then colorfulCssRule
     else defaultCssRule)

/-- `merge_css_update` (lines 449-475). -/
def merge_css_update (repo : RepoFiles) (task brief : String) : List Effect × RepoFiles :=
  match repoGet repo "style.css" with
  | some old =>
      let updated := mergeCssContent old brief
      ([Effect.fileUpdate "style.css" ("Guaranteed CSS update for " ++ task) updated],
        setFile repo "style.css" updated)
  | none =>
      ([Effect.fileCreate "style.css" "Add CSS" defaultCssFile],
        setFile repo "style.css" defaultCssFile)

/-- The button-handler JS appended by `merge_js_update`. -/
def buttonJsRule : String :=
  "\ndocument.querySelectorAll('button').forEach(btn => btn.addEventListener('click', () => alert('Updated in Round 2!')));\n"

/-- The generic JS marker appended by `merge_js_update`. -/
def defaultJsRule : String := "\nconsole.log('Round 2 logic applied');\n"

/-- The default JS created by `merge_js_update` when `script.js` is
missing. -/
def defaultJsFile : String := "console.log('Initial script');"

/-- Scripted JS fallback content for an existing `script.js`
(`merge_js_update`, lines 483-489). -/
def mergeJsContent (old brief : String) : String :=
  old ++ (if strContains (pyLower brief) "button" then buttonJsRule else defaultJsRule)

/-- `merge_js_update` (lines 478-502). -/
def merge_js_update (repo : RepoFiles) (task brief : String) : List Effect × RepoFiles :=
  match repoGet repo "script.js" with
  | some old =>
      let updated := mergeJsContent old brief
      ([Effect.fileUpdate "script.js" ("Guaranteed JS update for " ++ task) updated],
        setFile repo "script.js" updated)
  | none =>
      ([Effect.fileCreate "script.js" "Add JS" defaultJsFile],
        setFile repo "script.js" defaultJsFile)

/-- The warning printed by the round-2 post-commit HTML validity check
(line 536); nothing is actually restored. -/
def htmlInvalidWarn : String := "Invalid HTML, restoring previous file."

/-- The `index.html` step of `update_existing_repo` (lines 504-539)
**without** the trailing `"<html" not in updated_html.lower()` check:
fetch the current content (404 falls back to `merge_html_update`), run the
LLM edit, apply the acceptance heuristic, and commit either the accepted
LLM content (`update_file_safely`; the file exists in this branch, so it is
an update) or the scripted fallback. -/
def htmlStepNoCheck (llmRaw : String) (repo : RepoFiles) (task brief : String) :
    List Effect × RepoFiles :=
  match repoGet repo "index.html" with
  | some old =>
      let u := processedHtml llmRaw
      if llmRejected u old then
        let m := merge_html_update repo task brief
        (Effect.llmUpdate "index.html" :: m.1, m.2)
      else
        ([Effect.llmUpdate "index.html",
          Effect.fileUpdate "index.html" "Round 2: Updated HTML" u],
          setFile repo "index.html" u)
  | none => merge_html_update repo task brief

/-- The `index.html` step of `update_existing_repo` (lines 504-539),
including the post-commit validity check, which prints a warning when the
LLM candidate lacks `"<html"` (note: it inspects the LLM candidate even when
the fallback was committed) and changes no repository state. -/
def htmlStep (llmRaw : String) (repo : RepoFiles) (task brief : String) :
    List Effect × RepoFiles :=
  match repoGet repo "index.html" with
  | some old =>
      let u := processedHtml llmRaw
      let committed :=
        if llmRejected u old then
          let m := merge_html_update repo task brief
          (Effect.llmUpdate "index.html" :: m.1, m.2)
        else
          ([Effect.llmUpdate "index.html",
            Effect.fileUpdate "index.html" "Round 2: Updated HTML" u],
            setFile repo "index.html" u)
      let warnFx : List Effect :=
        if strContains (pyLower u) "<html" then [] else [Effect.log htmlInvalidWarn]
      (committed.1 ++ warnFx, committed.2)
  | none => merge_html_update repo task brief

/-- The `style.css` step of `update_existing_repo` (lines 541-568). -/
def cssStep (llmRaw : String) (repo : RepoFiles) (task brief : String) :
    List Effect × RepoFiles :=
  match repoGet repo "style.css" with
  | some old =>
      let u := processedCss llmRaw
      if llmRejected u old then
        let m := merge_css_update repo task brief
        (Effect.llmUpdate "style.css" :: m.1, m.2)
      else
        ([Effect.llmUpdate "style.css",
          Effect.fileUpdate "style.css" "Round 2: Updated CSS" u],
          setFile repo "style.css" u)
  | none => merge_css_update repo task brief

/-- The `script.js` step of `update_existing_repo` (lines 570-597). -/
def jsStep (llmRaw : String) (repo : RepoFiles) (task brief : String) :
    List Effect × RepoFiles :=
  match repoGet repo "script.js" with
  | some old =>
      let u := processedJs llmRaw
      if llmRejected u old then
        let m := merge_js_update repo task brief
        (Effect.llmUpdate "script.js" :: m.1, m.2)
      else
        ([Effect.llmUpdate "script.js",
          Effect.fileUpdate "script.js" "Round 2: Updated JS" u],
          setFile repo "script.js" u)
  | none => merge_js_update repo task brief

/-- The `README.md` step (lines 599-605): unconditional templated rewrite,
no LLM call. -/
def readmeStep (repo : RepoFiles) (task brief : String) : List Effect × RepoFiles :=
  match repoGet repo "README.md" with
  | some _ =>
      let c := "## Round 2 Update\n\n" ++ brief ++
        "\n\nThis round adds all new features, design tweaks, and logic changes described in the brief."
      ([Effect.fileUpdate "README.md" "Update README for Round 2" c],
        setFile repo "README.md" c)
  | none =>
      let c := "# " ++ task ++ "\n\n" ++ brief
      ([Effect.fileCreate "README.md" "Add README" c], setFile repo "README.md" c)

/-- Repository name derivation (lines 259, 380):
spaces and slashes replaced by hyphens. -/
def safeName (task : String) : String := pyReplace (pyReplace task " " "-") "/" "-"

/-- External responses consumed by `update_existing_repo`: the three raw LLM
edit responses, plus the account login and the values read back from the
platform. -/
structure UpdateOracle where
  llmHtml : String
  llmCss : String
  llmJs : String
  userLogin : String
  htmlUrl : String
  commitSha : String

/-- `update_existing_repo(task, new_brief)` (lines 373-613): the three asset
steps in order, the unconditional README rewrite, the recomputed Pages URL
(no re-enablement call) and its readiness wait, then the metadata triple
`(repo.html_url, commit_sha, pages_url)`. -/
def update_existing_repo (o : UpdateOracle) (repo : RepoFiles) (task new_brief : String) :
    (String × String × Option String) × List Effect × RepoFiles :=
  let s1 := htmlStep o.llmHtml repo task new_brief
  let s2 := cssStep o.llmCss s1.2 task new_brief
  let s3 := jsStep o.llmJs s2.2 task new_brief
  let s4 := readmeStep s3.2 task new_brief
  let pagesUrl := "https://" ++ o.userLogin ++ ".github.io/" ++ safeName task ++ "/"
  ((o.htmlUrl, o.commitSha, some pagesUrl),
    s1.1 ++ s2.1 ++ s3.1 ++ s4.1 ++ [Effect.pagesWait pagesUrl], s4.2)

theorem llmRejected_iff (u old : String) :
    llmRejected u old = true ↔ (2 * (pyStrip u).length < old.length ∨ u = old) := by
  simp [llmRejected]

theorem htmlStep_commits (llmRaw : String) (repo : RepoFiles) (task brief old : String)
    (h : repoGet repo "index.html" = some old) :
    repoGet (htmlStep llmRaw repo task brief).2 "index.html" =
      some (if 2 * (pyStrip (processedHtml llmRaw)).length < old.length ∨ processedHtml llmRaw = old
            then mergeHtmlContent old brief
            else processedHtml llmRaw) := by
  by_cases hc : 2 * (pyStrip (processedHtml llmRaw)).length < old.length ∨ processedHtml llmRaw = old
  · have hrej : llmRejected (processedHtml llmRaw) old = true := (llmRejected_iff _ _).mpr hc
    simp [htmlStep, h, hrej, if_pos hc, merge_html_update, repoGet_setFile_self]
  · have hrej : llmRejected (processedHtml llmRaw) old = false := by
      rw [← Bool.not_eq_true, llmRejected_iff]; exact hc
    simp [htmlStep, h, hrej, if_neg hc, repoGet_setFile_self]

theorem cssStep_commits (llmRaw : String) (repo : RepoFiles) (task brief old : String)
    (h : repoGet repo "style.css" = some old) :
    repoGet (cssStep llmRaw repo task brief).2 "style.css" =
      some (if 2 * (pyStrip (processedCss llmRaw)).length < old.length ∨ processedCss llmRaw = old
            then mergeCssContent old brief
            else processedCss llmRaw) := by
  by_cases hc : 2 * (pyStrip (processedCss llmRaw)).length < old.length ∨ processedCss llmRaw = old
  · have hrej : llmRejected (processedCss llmRaw) old = true := (llmRejected_iff _ _).mpr hc
    simp [cssStep, h, hrej, if_pos hc, merge_css_update, repoGet_setFile_self]
  · have hrej : llmRejected (processedCss llmRaw) old = false := by
      rw [← Bool.not_eq_true, llmRejected_iff]; exact hc
    simp [cssStep, h, hrej, if_neg hc, repoGet_setFile_self]

theorem jsStep_commits (llmRaw : String) (repo : RepoFiles) (task brief old : String)
    (h : repoGet repo "script.js" = some old) :
    repoGet (jsStep llmRaw repo task brief).2 "script.js" =
      some (if 2 * (pyStrip (processedJs llmRaw)).length < old.length ∨ processedJs llmRaw = old
            then mergeJsContent old brief
            else processedJs llmRaw) := by
  by_cases hc : 2 * (pyStrip (processedJs llmRaw)).length < old.length ∨ processedJs llmRaw = old
  · have hrej : llmRejected (processedJs llmRaw) old = true := (llmRejected_iff _ _).mpr hc
    simp [jsStep, h, hrej, if_pos hc, merge_js_update, repoGet_setFile_self]
  · have hrej : llmRejected (processedJs llmRaw) old = false := by
      rw [← Bool.not_eq_true, llmRejected_iff]; exact hc
    simp [jsStep, h, hrej, if_neg hc, repoGet_setFile_self]

/-- Original content used in the refutation of claim C2: its raw length is
16 but its trimmed length is 6. -/
def c2OldHtml : String := "<html>          "

/-- Claim C2, counterexample: the heuristic compares against the
**untrimmed** original length.  With original `"<html>" ++ ten spaces`
(raw length 16, trimmed length 6) and LLM output `"<ht>"` (trimmed length
4), the code commits the scripted fallback (since `2*4 < 16`), although the
claim's condition — trimmed length under 50% of the *trimmed* original, or
byte-identical — is false (`2*4 ≥ 6`). -/
theorem round2_trimmed_heuristic_refuted :
    repoGet (htmlStep "<ht>" [("index.html", c2OldHtml)] "t" "x").2 "index.html"
      = some (c2OldHtml ++ "\n<!-- Update: x -->")
    ∧ c2OldHtml ++ "\n<!-- Update: x -->" ≠ processedHtml "<ht>"
    ∧ ¬(2 * (pyStrip (processedHtml "<ht>")).length < (pyStrip c2OldHtml).length
        ∨ processedHtml "<ht>" = c2OldHtml) := by
  refine ⟨by decide, by decide, by decide⟩

/-- Claim C2 (amended): for every Round 2 update of `index.html`,
`style.css`, or `script.js` where the file exists, the scripted fallback
content (not the LLM content) is what gets committed iff the LLM output's
trimmed length is less than 50% of the original content's **raw
(untrimmed)** length, or the LLM output is byte-identical to the original. -/
theorem round2_fallback_commit_iff (llmRaw : String) (repo : RepoFiles) (task brief : String) :
    (∀ old, repoGet repo "index.html" = some old →
      repoGet (htmlStep llmRaw repo task brief).2 "index.html" =
        some (if 2 * (pyStrip (processedHtml llmRaw)).length < old.length ∨ processedHtml llmRaw = old
              then mergeHtmlContent old brief
              else processedHtml llmRaw))
    ∧ (∀ old, repoGet repo "style.css" = some old →
      repoGet (cssStep llmRaw repo task brief).2 "style.css" =
        some (if 2 * (pyStrip (processedCss llmRaw)).length < old.length ∨ processedCss llmRaw = old
              then mergeCssContent old brief
              else processedCss llmRaw))
    ∧ (∀ old, repoGet repo "script.js" = some old →
      repoGet (jsStep llmRaw repo task brief).2 "script.js" =
        some (if 2 * (pyStrip (processedJs llmRaw)).length < old.length ∨ processedJs llmRaw = old
              then mergeJsContent old brief
              else processedJs llmRaw)) :=
  ⟨fun old h => htmlStep_commits llmRaw repo task brief old h,
   fun old h => cssStep_commits llmRaw repo task brief old h,
   fun old h => jsStep_commits llmRaw repo task brief old h⟩

/-- Concrete repository used by the C2 and C10 witnesses. -/
def witRepo : RepoFiles :=
  [("index.html", "<p>A</p>"), ("style.css", "body"), ("script.js", "let x = 1;")]

/-- Witness for the amended claim C2 at a concrete repository: all three
hypotheses (the files exist) are discharged at `witRepo`. -/
theorem round2_fallback_commit_iff_witness :
    repoGet (htmlStep "ok" witRepo "t" "b").2 "index.html" =
      some (if 2 * (pyStrip (processedHtml "ok")).length < ("<p>A</p>" : String).length
              ∨ processedHtml "ok" = "<p>A</p>"
            then mergeHtmlContent "<p>A</p>" "b"
            else processedHtml "ok")
    ∧ repoGet (cssStep "ok" witRepo "t" "b").2 "style.css" =
      some (if 2 * (pyStrip (processedCss "ok")).length < ("body" : String).length
              ∨ processedCss "ok" = "body"
            then mergeCssContent "body" "b"
            else processedCss "ok")
    ∧ repoGet (jsStep "ok" witRepo "t" "b").2 "script.js" =
      some (if 2 * (pyStrip (processedJs "ok")).length < ("let x = 1;" : String).length
              ∨ processedJs "ok" = "let x = 1;"
            then mergeJsContent "let x = 1;" "b"
            else processedJs "ok") :=
  ⟨(round2_fallback_commit_iff "ok" witRepo "t" "b").1 "<p>A</p>" (by decide),
   (round2_fallback_commit_iff "ok" witRepo "t" "b").2.1 "body" (by decide),
   (round2_fallback_commit_iff "ok" witRepo "t" "b").2.2 "let x = 1;" (by decide)⟩

/-- Claim C10: in the Round 2 `index.html` step, the post-commit
`"<html" in updated_html.lower()` check has no effect on repository state:
the resulting repository equals that of the check-free step for every
outcome of the check, and the check contributes only a printed warning to
the trace (when the candidate lacks `"<html"`), never a commit or a
restore. -/
theorem html_check_no_repo_effect (llmRaw : String) (repo : RepoFiles) (task brief old : String)
    (h : repoGet repo "index.html" = some old) :
    (htmlStep llmRaw repo task brief).2 = (htmlStepNoCheck llmRaw repo task brief).2
    ∧ (htmlStep llmRaw repo task brief).1 =
        (htmlStepNoCheck llmRaw repo task brief).1 ++
          (if strContains (pyLower (processedHtml llmRaw)) "<html" then []
           else [Effect.log htmlInvalidWarn]) := by
  by_cases hrej : llmRejected (processedHtml llmRaw) old <;>
    simp [htmlStep, htmlStepNoCheck, h, hrej]

/-- Witness for claim C10 at a concrete repository and LLM response. -/
theorem html_check_no_repo_effect_witness :
    (htmlStep "ok" witRepo "t" "b").2 = (htmlStepNoCheck "ok" witRepo "t" "b").2
    ∧ (htmlStep "ok" witRepo "t" "b").1 =
        (htmlStepNoCheck "ok" witRepo "t" "b").1 ++
          (if strContains (pyLower (processedHtml "ok")) "<html" then []
           else [Effect.log htmlInvalidWarn]) :=
  html_check_no_repo_effect "ok" witRepo "t" "b" "<p>A</p>" (by decide)

/-! ### Round 1 publisher (`create_and_deploy_repo`, main.py lines 250-370) -/

/-- A request attachment `{name, url}`. -/
structure Attachment where
  name : String
  url : String
deriving DecidableEq, Repr

/-- `app_code.pop("LICENSE", None)` guarded by `"LICENSE" in app_code`
(lines 287-289): the key `"LICENSE"` is removed from the generated file
set. -/
def stripLicenseKey (app_code : List (String × String)) : List (String × String) :=
  app_code.filter (fun p => p.1 != "LICENSE")

/-- The per-file content patch of `fix_common_ci_errors` (lines 291-302):
two known-invalid Ruff invocations inside `.yml`/`.yaml` files are
rewritten. -/
def fixCiContent (fname content : String) : String :=
  if pyEndsWith fname ".yml" || pyEndsWith fname ".yaml" then
    let c1 :=
      if strContains content "ruff ." && !(strContains content "ruff check .") then
        pyReplace content "ruff ." "ruff check . || true"
      else content
    if strContains c1 "ruff --fix ." && !(strContains c1 "ruff check . --fix") then
      pyReplace c1 "ruff --fix ." "ruff check . --fix || true"
    else c1
  else content

/-- `fix_common_ci_errors` (lines 291-303): keys are preserved, contents
patched. -/
def fix_common_ci_errors (app_code : List (String × String)) : List (String × String) :=
  app_code.map (fun p => (p.1, fixCiContent p.1 p.2))

/-- Per-file content cleanup in the upload loop (line 308):
`content.replace("```html", "").replace("```", "").strip()`. -/
def processContent (c : String) : String :=
  pyStrip (pyReplace (pyReplace c "```html" "") "```" "")

/-- The generated files actually uploaded by the loop at lines 305-327:
LICENSE popped beforehand, CI patch applied, code-fence keys and
blank-after-strip keys skipped, content cleaned.  `repo.create_file` is
called with the **unstripped** key (`filename`, not `clean`); the
`seen`-set, size and control-byte inspections only print. -/
def uploadedGenerated (app_code : List (String × String)) : List (String × String) :=
  (fix_common_ci_errors (stripLicenseKey app_code)).filterMap (fun p =>
    if pyStartsWith p.1 "```" || pyStrip p.1 == "" then none
    else some (p.1, processContent p.2))

/-- `get_mit_license(name)` (lines 635-639): the fixed MIT template,
parameterised only by the display name. -/
def get_mit_license (name : String) : String :=
  "MIT License\nCopyright (c) 2025 " ++ name ++
    "\nPermission is hereby granted, free of charge, to any person obtaining a copy...\n"

/-- `process_attachments(attachments, repo)` (lines 225-242): each
attachment with a nonempty name, nonempty url and a `data:` URI is base64
decoded and utf-8 decoded with lossy fallback (`decode att.url`, an oracle;
`none` models the per-attachment caught-and-logged failure) and uploaded
with commit message `Add attachment {name}`. -/
def process_attachments (decode : String → Option String) (atts : List Attachment)
    (repo : RepoFiles) : List Effect × RepoFiles :=
  atts.foldl (fun acc att =>
    if att.name != "" && att.url != "" && pyStartsWith att.url "data:" then
      match decode att.url with
      | some text =>
          (acc.1 ++ [Effect.fileCreate att.name ("Add attachment " ++ att.name) text],
            setFile acc.2 att.name text)
      | none => acc
    else acc) ([], repo)

/-- External responses consumed by `create_and_deploy_repo`. -/
structure DeployOracle where
  /-- Does a stale repository of the derived name exist (line 262)? -/
  staleExists : Bool
  /-- Content of the LICENSE file the platform creates from the
  `license_template="mit"` repository template, if it creates one. -/
  initLicense : Option String
  /-- Base64 + lossy utf-8 decoding of a data URI; `none` is a raised,
  caught decode error. -/
  decode : String → Option String
  /-- `user.name` (display name, used for the MIT license). -/
  userName : String
  /-- `user.login` (used for the Pages URL). -/
  userLogin : String
  /-- `repo.html_url`. -/
  htmlUrl : String
  /-- HTTP status of the Pages-enablement POST (line 348). -/
  pagesStatus : Nat
  /-- `repo.get_commits()[0].sha`. -/
  commitSha : String

/-- `create_and_deploy_repo(task, app_code, brief, attachments=None)`
(lines 250-370).  Returns `(html_url, commit_sha, pages_url)`, the effect
trace, and the final repository state.  The sanitized description only
feeds `create_repo` and is not modelled.  Pages enablement failure
(status outside 200/201) is caught and degrades to `pages_url = None`;
only a successful enablement leads to the readiness wait. -/
def create_and_deploy_repo (o : DeployOracle) (task : String)
    (app_code : List (String × String)) (brief : String)
    (attachments : Option (List Attachment)) :
    (String × String × Option String) × List Effect × RepoFiles :=
  let repoName := safeName task
  let delFx : List Effect := if o.staleExists then [Effect.repoDelete repoName] else []
  let repo0 : RepoFiles := match o.initLicense with
    | some c => [("LICENSE", c)]
    | none => []
  let files := uploadedGenerated app_code
  let repo1 := files.foldl (fun r p => setFile r p.1 p.2) repo0
  let upFx := files.map (fun p => Effect.fileCreate p.1 ("Add " ++ p.1) p.2)
  let att := match attachments with
    | some l => if l.isEmpty then ([], repo1) else process_attachments o.decode l repo1
    | none => ([], repo1)
  let mit := get_mit_license o.userName
  let licFx : List Effect := match repoGet att.2 "LICENSE" with
    | some _ => [Effect.fileUpdate "LICENSE" "Update MIT License" mit]
    | none => [Effect.fileCreate "LICENSE" "Add MIT License" mit]
  let repo3 := setFile att.2 "LICENSE" mit
  let pagesUrl : Option String :=
    if o.pagesStatus == 200 || o.pagesStatus == 201 then
      some ("https://" ++ o.userLogin ++ ".github.io/" ++ repoName ++ "/")
    else none
  let waitFx : List Effect := match pagesUrl with
    | some u => [Effect.pagesWait u]
    | none => []
  ((o.htmlUrl, o.commitSha, pagesUrl),
    delFx ++ [Effect.repoCreate repoName] ++ upFx ++ att.1 ++ licFx
      ++ [Effect.pagesEnable o.pagesStatus] ++ waitFx,
    repo3)

/-! ### HTTP endpoint (`build_app`, main.py lines 67-154) -/

/-- Process configuration: `STUDENT_SECRET = os.getenv("STUDENT_SECRET")`
(line 45) — `none` when the environment variable is unset. -/
structure Config where
  studentSecret : Option String
deriving DecidableEq, Repr

/-- A `{status, message}` response body. -/
structure Response where
  status : String
  message : String
deriving DecidableEq, Repr

/-- What the handler produces: a constructed `{status, message}` body, the
Python `None` fall-through (serialized as `null`), or — when the callback
loop's modelled attempts are exhausted without a 200 — a handler that is
still looping and has produced no response. -/
inductive HandlerResult where
  | response (r : Response)
  | noneValue
  | diverged
deriving DecidableEq, Repr

/-- The JSON body of a build request.  `secret` is `data.get("secret")`
(`none` when the field is absent); the remaining required fields are
modelled as present (a missing one raises an unhandled `KeyError`, outside
these claims).  `round` is any integer — the claims only distinguish
1, 2, and everything else. -/
structure BuildRequest where
  secret : Option String
  email : String
  task : String
  brief : String
  attachments : List Attachment
  round : Int
  nonce : String
  evaluation_url : String
  checks : List String
deriving Repr

/-- All external responses one request can consume. -/
structure Oracle where
  /-- The parsed JSON object returned by the `generate_minimal_app` LLM
  call (line 95). -/
  appCode : List (String × String)
  deploy : DeployOracle
  upd : UpdateOracle
  /-- The existing repository's files, as seen by Round 2. -/
  repoFiles : RepoFiles
  /-- Outcomes of successive callback POST attempts. -/
  cbOutcomes : List CbOutcome

/-- The local-disk writes of lines 85-91: every attachment whose url starts
with `data:image` is decoded and written to a local file (not to any
repository). -/
def localSaves (atts : List Attachment) : List Effect :=
  (atts.filter (fun a => pyStartsWith a.url "data:image")).map
    (fun a => Effect.localSave a.name)

/-- The `/build` handler (lines 67-154).  Secret check first (no side
effects before it); then local attachment saves and the unconditional
`generate_minimal_app` LLM call; then the round dispatch.  Note line 99
passes only `(task, app_code, brief)` to `create_and_deploy_repo`, so its
`attachments` parameter defaults to `None`. -/
def build_app (cfg : Config) (o : Oracle) (req : BuildRequest) : HandlerResult × List Effect :=
  if req.secret ≠ cfg.studentSecret then
    (HandlerResult.response ⟨"error", "Invalid secret"⟩, [])
  else
    let preFx := localSaves req.attachments ++ [Effect.llmGenerate]
    if req.round = 1 then
      let dep := create_and_deploy_repo o.deploy req.task o.appCode req.brief none
      let notif := notifyLoop req.evaluation_url o.cbOutcomes 1
      ((if notif.2 then HandlerResult.response ⟨"ok", "Round 1 build complete"⟩
        else HandlerResult.diverged),
        preFx ++ dep.2.1 ++ notif.1)
    else if req.round = 2 then
      let upd := update_existing_repo o.upd o.repoFiles req.task req.brief
      let notif := notifyLoop req.evaluation_url o.cbOutcomes 1
      ((if notif.2 then HandlerResult.response ⟨"ok", "Round 2 update complete"⟩
        else HandlerResult.diverged),
        preFx ++ upd.2.1 ++ notif.1)
    else (HandlerResult.noneValue, preFx)

/-! ### Endpoint lemmas and claims -/

theorem build_app_of_bad_secret (cfg : Config) (o : Oracle) (req : BuildRequest)
    (h : req.secret ≠ cfg.studentSecret) :
    build_app cfg o req = (HandlerResult.response ⟨"error", "Invalid secret"⟩, []) := by
  simp [build_app, h]

theorem build_app_of_good_secret_ne (cfg : Config) (o : Oracle) (req : BuildRequest)
    (h : req.secret = cfg.studentSecret) :
    (build_app cfg o req).1 ≠ HandlerResult.response ⟨"error", "Invalid secret"⟩ := by
  simp only [build_app, h, ne_eq, not_true_eq_false, if_false]
  split_ifs <;> simp

theorem build_app_of_good_secret_gen (cfg : Config) (o : Oracle) (req : BuildRequest)
    (h : req.secret = cfg.studentSecret) :
    Effect.llmGenerate ∈ (build_app cfg o req).2 := by
  simp only [build_app, h, ne_eq, not_true_eq_false, if_false]
  split_ifs <;> simp

/-- Claim C1: a request whose secret does not equal the configured shared
secret gets exactly the `{"status":"error","message":"Invalid secret"}`
response and an empty effect trace — no repository operation, no LLM call,
no callback. -/
theorem secret_mismatch_no_side_effects (cfg : Config) (o : Oracle) (req : BuildRequest)
    (h : req.secret ≠ cfg.studentSecret) :
    build_app cfg o req = (HandlerResult.response ⟨"error", "Invalid secret"⟩, []) :=
  build_app_of_bad_secret cfg o req h

/-- Sample configuration with the shared secret set. -/
def cfgS : Config := ⟨some "s"⟩

/-- Sample configuration with the shared-secret environment variable
unset. -/
def cfgNone : Config := ⟨none⟩

/-- Sample deploy oracle. -/
def sampleDeploy : DeployOracle :=
  ⟨false, none, fun _ => some "hello", "User", "login", "https://github.com/login/t", 200, "sha1"⟩

/-- Sample update oracle. -/
def sampleUpd : UpdateOracle :=
  ⟨"", "", "", "login", "https://github.com/login/t", "sha2"⟩

/-- Sample full oracle. -/
def sampleOracle : Oracle :=
  ⟨[("index.html", "<p>hi</p>")], sampleDeploy, sampleUpd, [], [CbOutcome.status 200]⟩

/-- Round 1 request with a wrong secret. -/
def reqBadSecret : BuildRequest := ⟨some "wrong", "e", "t", "b", [], 1, "n", "u", []⟩

/-- Authenticated Round 2 request. -/
def reqRound2 : BuildRequest := ⟨some "s", "e", "t", "b", [], 2, "n", "u", []⟩

/-- Authenticated request with an unsupported round value. -/
def reqRound3 : BuildRequest := ⟨some "s", "e", "t", "b", [], 3, "n", "u", []⟩

/-- Authenticated request that omits the `secret` field. -/
def reqNoSecret : BuildRequest := ⟨none, "e", "t", "b", [], 2, "n", "u", []⟩

/-- Authenticated Round 1 request carrying one data-URI attachment. -/
def reqAttach : BuildRequest :=
  ⟨some "s", "e", "t", "b", [⟨"notes.txt", "data:text/plain;base64,aGVsbG8="⟩], 1, "n", "u", []⟩

theorem secret_mismatch_no_side_effects_witness :
    reqBadSecret.secret ≠ cfgS.studentSecret
    ∧ build_app cfgS sampleOracle reqBadSecret
        = (HandlerResult.response ⟨"error", "Invalid secret"⟩, []) :=
  ⟨by decide, secret_mismatch_no_side_effects cfgS sampleOracle reqBadSecret (by decide)⟩

/-- Claim C9: authentication rejects a request iff the request's `secret`
value (`none` when absent) differs from the configured shared secret; in
particular with the environment variable unset and the field omitted the
request is not rejected and proceeds into the pipeline (the generator LLM
call occurs). -/
theorem auth_reject_iff_secret_mismatch (cfg : Config) (o : Oracle) (req : BuildRequest) :
    ((build_app cfg o req).1 = HandlerResult.response ⟨"error", "Invalid secret"⟩
      ↔ req.secret ≠ cfg.studentSecret)
    ∧ (cfg.studentSecret = none → req.secret = none →
        Effect.llmGenerate ∈ (build_app cfg o req).2) := by
  constructor
  · constructor
    · intro hresp
      rcases eq_or_ne req.secret cfg.studentSecret with hns | hne
      · exact absurd hresp (build_app_of_good_secret_ne cfg o req hns)
      · exact hne
    · intro hne
      rw [build_app_of_bad_secret cfg o req hne]
  · intro hc hr
    exact build_app_of_good_secret_gen cfg o req (by rw [hc, hr])

theorem auth_reject_iff_secret_mismatch_witness :
    Effect.llmGenerate ∈ (build_app cfgNone sampleOracle reqNoSecret).2 :=
  (auth_reject_iff_secret_mismatch cfgNone sampleOracle reqNoSecret).2 rfl rfl

/-- Claim C8: an authenticated request whose round is neither 1 nor 2 runs
neither round branch — the trace stops at the pre-dispatch effects (local
attachment saves and the generator call) — and the handler falls through
with no constructed `{status, message}` body (Python `None`). -/
theorem unknown_round_falls_through (cfg : Config) (o : Oracle) (req : BuildRequest)
    (h : req.secret = cfg.studentSecret) (h1 : req.round ≠ 1) (h2 : req.round ≠ 2) :
    build_app cfg o req =
      (HandlerResult.noneValue, localSaves req.attachments ++ [Effect.llmGenerate]) := by
  simp [build_app, h, h1, h2]

theorem unknown_round_falls_through_witness :
    build_app cfgS sampleOracle reqRound3 =
      (HandlerResult.noneValue, localSaves reqRound3.attachments ++ [Effect.llmGenerate]) :=
  unknown_round_falls_through cfgS sampleOracle reqRound3 rfl (by decide) (by decide)

/-- Claim C4, counterexample: the generator LLM call (`generate_minimal_app`,
line 95) sits **before** the round dispatch, so it also runs for an
authenticated Round 2 request — refuting "the App Generator is invoked only
on the Round 1 path, never for Round 2". -/
theorem round2_generator_still_invoked :
    reqRound2.round = 2 ∧ reqRound2.secret = cfgS.studentSecret
    ∧ Effect.llmGenerate ∈ (build_app cfgS sampleOracle reqRound2).2 := by
  refine ⟨rfl, rfl, ?_⟩
  decide

/-- Claim C4 (amended): for every authenticated Round 2 request the App
Generator LLM call is still made (its output discarded), and the pipeline
is then the Repository Updater followed by the Callback Notifier: the trace
is the pre-dispatch effects, then the updater's effects, then the
notifier's. -/
theorem round2_pipeline_after_auth (cfg : Config) (o : Oracle) (req : BuildRequest)
    (h : req.secret = cfg.studentSecret) (h2 : req.round = 2) :
    build_app cfg o req =
      ((if (notifyLoop req.evaluation_url o.cbOutcomes 1).2
          then HandlerResult.response ⟨"ok", "Round 2 update complete"⟩
          else HandlerResult.diverged),
        localSaves req.attachments ++ [Effect.llmGenerate]
          ++ (update_existing_repo o.upd o.repoFiles req.task req.brief).2.1
          ++ (notifyLoop req.evaluation_url o.cbOutcomes 1).1) := by
  have h1 : req.round ≠ 1 := by rw [h2]; decide
  simp [build_app, h, h1, h2, List.append_assoc]

theorem round2_pipeline_after_auth_witness :
    build_app cfgS sampleOracle reqRound2 =
      ((if (notifyLoop reqRound2.evaluation_url sampleOracle.cbOutcomes 1).2
          then HandlerResult.response ⟨"ok", "Round 2 update complete"⟩
          else HandlerResult.diverged),
        localSaves reqRound2.attachments ++ [Effect.llmGenerate]
          ++ (update_existing_repo sampleOracle.upd sampleOracle.repoFiles
                reqRound2.task reqRound2.brief).2.1
          ++ (notifyLoop reqRound2.evaluation_url sampleOracle.cbOutcomes 1).1) :=
  round2_pipeline_after_auth cfgS sampleOracle reqRound2 rfl rfl

/-- Is this effect a commit created by `process_attachments` (its commit
messages all start with `Add attachment`)? -/
def isAttachmentCommit : Effect → Bool
  | .fileCreate _ m _ => pyStartsWith m "Add attachment"
  | .fileUpdate _ m _ => pyStartsWith m "Add attachment"
  | _ => false

/-- Claim C3 (code bug): for a Round 1 request carrying a data-URI
attachment, the handler trace contains **no** attachment upload — line 99
calls `create_and_deploy_repo(task, app_code, brief)` without the
`attachments` argument, so `process_attachments` never runs — although
`process_attachments` itself, had it been called as the spec describes,
would have committed the decoded attachment. -/
theorem round1_attachments_never_uploaded :
    (build_app cfgS sampleOracle reqAttach).2.filter isAttachmentCommit = []
    ∧ (process_attachments sampleDeploy.decode reqAttach.attachments []).1
        = [Effect.fileCreate "notes.txt" "Add attachment notes.txt" "hello"] := by
  exact ⟨by decide, by decide⟩

/-- Claim C5: the uploaded generated file set contains no key literally
equal to `"LICENSE"` (it is popped at lines 287-289), and after the final
create-or-update at lines 336-343 the repository's LICENSE content is the
fixed MIT template, whatever the model produced. -/
theorem round1_license_always_mit (o : DeployOracle) (task : String)
    (app_code : List (String × String)) (brief : String)
    (atts : Option (List Attachment)) :
    (∀ p ∈ uploadedGenerated app_code, p.1 ≠ "LICENSE")
    ∧ repoGet (create_and_deploy_repo o task app_code brief atts).2.2 "LICENSE"
        = some (get_mit_license o.userName) := by
  constructor
  · intro p hp
    simp only [uploadedGenerated, List.mem_filterMap] at hp
    obtain ⟨q, hq, he⟩ := hp
    by_cases hcond : (pyStartsWith q.1 "```" || pyStrip q.1 == "") = true
    · rw [if_pos hcond] at he
      exact absurd he (by simp)
    · rw [if_neg hcond] at he
      have hpq : (q.1, processContent q.2) = p := Option.some.inj he
      simp only [fix_common_ci_errors, List.mem_map] at hq
      obtain ⟨r, hr, hqr⟩ := hq
      simp only [stripLicenseKey, List.mem_filter] at hr
      have hrl : r.1 ≠ "LICENSE" := by simpa using hr.2
      rw [← hpq]
      simpa [← hqr] using hrl
  · simp only [create_and_deploy_repo]
    exact repoGet_setFile_self _ _ _

theorem round1_license_always_mit_witness :
    (("index.html", processContent "<p>hi</p>") : String × String).1 ≠ "LICENSE"
    ∧ repoGet (create_and_deploy_repo sampleDeploy "t" [("index.html", "<p>hi</p>")]
        "b" none).2.2 "LICENSE" = some (get_mit_license sampleDeploy.userName) :=
  ⟨(round1_license_always_mit sampleDeploy "t" [("index.html", "<p>hi</p>")] "b" none).1
      ("index.html", processContent "<p>hi</p>") (by decide),
   (round1_license_always_mit sampleDeploy "t" [("index.html", "<p>hi</p>")] "b" none).2⟩

end LlmDeploy
